import Mathlib

/-!
Verification development for the MQTT-to-PostgreSQL telemetry bridge
(`mqtt_to_database.py`).  The definitions below are a shallow embedding of
the script's aggregation core: the mutable `data_buffer` dictionary, the
`reading_counter`, the `on_message` field dispatch, `flush_buffer_to_db`,
`check_buffer_timeout`, the `on_connect` reconnect logic, and the
statistics-line parsing inside `save_statistics`.

Modelling conventions:
* Sensor float payloads are exact rationals (`Rat`); no claim depends on
  IEEE-754 rounding.  Timestamps (`time.time()` values) are modelled as
  integer seconds (`Int`); no claim depends on fractional elapsed time.
* The external Storage Sink (`save_sensor_reading`, i.e. the database
  insert) is modelled by its observable interface: each flush hands the
  would-be row (a `SensorReading`) to the sink, and the sink's boolean
  success result is an oracle input.  `check_buffer_timeout` ignores the
  result, exactly as the script discards `save_sensor_reading`'s return
  value there.
* Text processed by the statistics parser is modelled as `List Char`;
  parsed floats are kept as exact scaled decimals (`PyFloat`).
-/

namespace MqttBridge

/-- `BUFFER_TIMEOUT = 60` (seconds), from the configuration block. -/
def BUFFER_TIMEOUT : Int := 60

/-- `max_reconnects = 5`, from the configuration block. -/
def max_reconnects : Nat := 5

/-- The `data_buffer` dictionary.  Every key is always present; a missing
value is the Python `None`, i.e. `Option.none` here.  `last_update` holds
the `time.time()` stamp written by the `estado` branch of `on_message`. -/
structure DataBuffer where
  temperature : Option Rat
  humidity : Option Rat
  ldr_percent : Option Rat
  ldr_raw : Option Int
  estado : Option String
  comfort : Option String
  last_update : Option Int
deriving DecidableEq, Repr

/-- The all-`None` dictionary the script assigns on initialisation and on
every buffer reset. -/
def emptyBuffer : DataBuffer :=
  { temperature := none, humidity := none, ldr_percent := none,
    ldr_raw := none, estado := none, comfort := none, last_update := none }

/-- The argument tuple handed to `save_sensor_reading` (the Storage Sink)
by a flush, i.e. the row contents of the would-be `sensor_readings` insert.
`ldr_raw` and `estado` are `Option`s because the timeout path passes the
raw buffer values, which can be `None`.  `partialFlag` records which call
site emitted the row (`false` = `flush_buffer_to_db`, `true` = the
timeout path), the spec's `isPartial`. -/
structure SensorReading where
  temperature : Option Rat
  humidity : Option Rat
  ldr_percent : Rat
  ldr_raw : Option Int
  estado : Option String
  comfort : Option String
  reading_number : Nat
  partialFlag : Bool
deriving DecidableEq, Repr

/-- The script's global mutable state relevant to aggregation:
`data_buffer` and `reading_counter`. -/
structure BridgeState where
  buffer : DataBuffer
  reading_counter : Nat
deriving DecidableEq, Repr

/-- State at program start: empty buffer, `reading_counter = 0`. -/
def initState : BridgeState := { buffer := emptyBuffer, reading_counter := 0 }

/-- A typed field update, i.e. one MQTT message after the `on_message`
dispatch on the feed name and the numeric conversion of its payload.
`temperature`/`humidity` carry `none` for an `"N/A"` payload.  The
`estado` constructor also carries the `time.time()` value the handler
writes into `last_update`. -/
inductive FieldUpdate where
  | temperature (v : Option Rat)
  | humidity (v : Option Rat)
  | ldr_percent (v : Rat)
  | ldr_raw (v : Int)
  | comfort (v : String)
  | estado (v : String) (now : Int)
deriving DecidableEq, Repr

/-- Whether an update is the `estado` (state) field. -/
def isEstado : FieldUpdate → Bool
  | .estado _ _ => true
  | _ => false

/-- `flush_buffer_to_db`: if `ldr_percent`, `ldr_raw` and `estado` are all
non-`None`, call `save_sensor_reading` with the buffer contents and the
current `reading_counter`; the buffer is replaced by the empty dictionary
only when that call returns `True` (`ok`).  Returns the new state and the
row handed to the sink (if any). -/
def flush_buffer_to_db (st : BridgeState) (ok : Bool) :
    BridgeState × Option SensorReading :=
  match st.buffer.ldr_percent, st.buffer.ldr_raw, st.buffer.estado with
  | some lp, some _, some _ =>
      let r : SensorReading :=
        { temperature := st.buffer.temperature
          humidity := st.buffer.humidity
          ldr_percent := lp
          ldr_raw := st.buffer.ldr_raw
          estado := st.buffer.estado
          comfort := st.buffer.comfort
          reading_number := st.reading_counter
          partialFlag := false }
      if ok then ({ st with buffer := emptyBuffer }, some r)
      else (st, some r)
  | _, _, _ => (st, none)

/-- `check_buffer_timeout`: if `last_update` is set and more than
`BUFFER_TIMEOUT` seconds have elapsed and `ldr_percent` is non-`None`,
call `save_sensor_reading` with the buffer contents and reset the buffer.
The script writes `data_buffer.get('ldr_raw', 0)` and
`data_buffer.get('estado', 'UNKNOWN')`, but both keys are always present
in the dictionary, so `.get` returns the stored value (possibly `None`)
and the defaults never apply; the embedding therefore passes the raw
buffer values.  The sink's success result (`_ok`) is discarded by the
script — the reset is unconditional once the row is emitted. -/
def check_buffer_timeout (st : BridgeState) (now : Int) (_ok : Bool) :
    BridgeState × Option SensorReading :=
  match st.buffer.last_update with
  | some lu =>
      if now - lu > BUFFER_TIMEOUT then
        match st.buffer.ldr_percent with
        | some lp =>
            let r : SensorReading :=
              { temperature := st.buffer.temperature
                humidity := st.buffer.humidity
                ldr_percent := lp
                ldr_raw := st.buffer.ldr_raw
                estado := st.buffer.estado
                comfort := st.buffer.comfort
                reading_number := st.reading_counter
                partialFlag := true }
            ({ st with buffer := emptyBuffer }, some r)
        | none => (st, none)
      else (st, none)
  | none => (st, none)

/-- The per-message body of `on_message`: write the field into
`data_buffer`; on an `estado` message additionally set `last_update`,
increment `reading_counter`, and run `flush_buffer_to_db` (whose sink
outcome is the oracle `ok`). -/
def applyUpdate (st : BridgeState) (u : FieldUpdate) (ok : Bool) :
    BridgeState × Option SensorReading :=
  match u with
  | .temperature v =>
      ({ st with buffer := { st.buffer with temperature := v } }, none)
  | .humidity v =>
      ({ st with buffer := { st.buffer with humidity := v } }, none)
  | .ldr_percent v =>
      ({ st with buffer := { st.buffer with ldr_percent := some v } }, none)
  | .ldr_raw v =>
      ({ st with buffer := { st.buffer with ldr_raw := some v } }, none)
  | .comfort v =>
      ({ st with buffer := { st.buffer with comfort := some v } }, none)
  | .estado v now =>
      let st1 : BridgeState :=
        { buffer := { st.buffer with estado := some v, last_update := some now }
          reading_counter := st.reading_counter + 1 }
      flush_buffer_to_db st1 ok

/-- Process a sequence of field updates, each paired with the sink-success
oracle consulted if that update triggers a flush.  Collects every row
handed to the Storage Sink, in order. -/
def runUpdates (st : BridgeState) :
    List (FieldUpdate × Bool) → BridgeState × List SensorReading
  | [] => (st, [])
  | (u, ok) :: rest =>
      let step := applyUpdate st u ok
      let next := runUpdates step.fst rest
      (next.fst, step.snd.toList ++ next.snd)

/-- The buffer-field write performed by one update, if any: `some w` means
the update overwrites that buffer field with `w`.  Instantiated with the
projections below, this is the specification-side notion of "the
most-recently-set value of a field" in an update sequence. -/
def lastVal {α : Type} (f : FieldUpdate → Option α) :
    List (FieldUpdate × Bool) → Option α
  | [] => none
  | p :: rest =>
      match lastVal f rest with
      | some v => some v
      | none => f p.fst

/-- Buffer value written into `temperature` by an update. -/
def bufTemp : FieldUpdate → Option (Option Rat)
  | .temperature v => some v
  | _ => none

/-- Buffer value written into `humidity` by an update. -/
def bufHum : FieldUpdate → Option (Option Rat)
  | .humidity v => some v
  | _ => none

/-- Buffer value written into `ldr_percent` by an update. -/
def bufLdrP : FieldUpdate → Option (Option Rat)
  | .ldr_percent v => some (some v)
  | _ => none

/-- Buffer value written into `ldr_raw` by an update. -/
def bufLdrRaw : FieldUpdate → Option (Option Int)
  | .ldr_raw v => some (some v)
  | _ => none

/-- Buffer value written into `comfort` by an update. -/
def bufComfort : FieldUpdate → Option (Option String)
  | .comfort v => some (some v)
  | _ => none

/-- Observable effect of one `on_connect` invocation: on `rc = 0` the
handler resets the failure counter, re-subscribes and records a bridge
event (`connected`); on a failure it either sleeps and lets the client
retry (`backoffRetry`) or, once `max_reconnects` is reached, records the
`MQTT_ERROR` fatal event and schedules no retry (`fatalError`). -/
inductive ConnEffect where
  | connected
  | backoffRetry
  | fatalError
deriving DecidableEq, BEq, Repr

/-- `on_connect`: the reconnect-counter logic of the connection callback,
as a function of the global `reconnect_count` and the result code `rc`. -/
def on_connect (reconnect_count : Nat) (rc : Nat) : Nat × ConnEffect :=
  if rc = 0 then (0, ConnEffect.connected)
  else
    let c := reconnect_count + 1
    if c < max_reconnects then (c, ConnEffect.backoffRetry)
    else (c, ConnEffect.fatalError)

/-- Iterate `on_connect` over a list of result codes, collecting the
effect of every invocation. -/
def runConn (count : Nat) : List Nat → Nat × List ConnEffect
  | [] => (count, [])
  | rc :: rest =>
      let step := on_connect count rc
      let next := runConn step.fst rest
      (next.fst, step.snd :: next.snd)

/-- `on_connect` restricted to failures (`rc ≠ 0`), iterated `n` times;
every non-zero `rc` takes the same branch, so a run of consecutive
failures depends only on its length. -/
def runFailures (count : Nat) : Nat → Nat × List ConnEffect
  | 0 => (count, [])
  | Nat.succ n =>
      let c := count + 1
      let e := if c < max_reconnects then ConnEffect.backoffRetry
               else ConnEffect.fatalError
      let next := runFailures c n
      (next.fst, e :: next.snd)

/-!  The statistics-line parser inside `save_statistics`. -/

/-- The exact value of a parsed decimal float literal:
`mantissa / 10 ^ frac_digits`.  Python's `float()` on the plain decimal
literals of a statistics line is injective on this representation up to
the written digits, and no claim compares differently-written literals,
so exact scaled decimals stand in for IEEE floats. -/
structure PyFloat where
  mantissa : Int
  frac_digits : Nat
deriving DecidableEq, Repr

/-- Numeric value of a digit character. -/
def digitVal (c : Char) : Nat := c.toNat - 48

/-- Value of a digit string read left to right. -/
def digitsToNat (cs : List Char) : Nat :=
  cs.foldl (fun a c => a * 10 + digitVal c) 0

/-- Python `float()` restricted to plain decimal literals (optional sign,
digits, optional fractional part): `none` models the `ValueError` raised
on anything else.  Exponent/`inf`/`nan` forms never occur in a statistics
line and are out of scope. -/
def parseFloat (cs : List Char) : Option PyFloat :=
  let sgn : Int := match cs with
    | '-' :: _ => -1
    | _ => 1
  let body : List Char := match cs with
    | '-' :: rest => rest
    | '+' :: rest => rest
    | _ => cs
  let ip := body.takeWhile (fun c => c ≠ '.')
  match body.dropWhile (fun c => c ≠ '.') with
  | [] =>
      if ip.isEmpty then none
      else if ip.all Char.isDigit then some ⟨sgn * digitsToNat ip, 0⟩
      else none
  | _ :: fp =>
      if fp.any (fun c => c = '.') then none
      else if ip.isEmpty && fp.isEmpty then none
      else if ip.all Char.isDigit && fp.all Char.isDigit then
        some ⟨sgn * (digitsToNat ip * 10 ^ fp.length + digitsToNat fp),
              fp.length⟩
      else none

/-- Split a character list at every separator satisfying `p`, keeping
empty segments — the behaviour of Python's `str.split(sep)`. -/
def splitOnP (p : Char → Bool) : List Char → List (List Char)
  | [] => [[]]
  | c :: rest =>
      let r := splitOnP p rest
      if p c then [] :: r
      else
        match r with
        | [] => [[c]]
        | t :: ts => (c :: t) :: ts

/-- Python `s.split(sep)` for a one-character separator. -/
def splitOnChar (sep : Char) (cs : List Char) : List (List Char) :=
  splitOnP (fun c => c = sep) cs

/-- Python `s.rstrip(')')`: drop every trailing `')'`. -/
def rstripParen (cs : List Char) : List Char :=
  (cs.reverse.dropWhile (fun c => c = ')')).reverse

/-- Python's no-argument `str.split()`: split on whitespace runs and drop
empty tokens. -/
def tokensOf (line : List Char) : List (List Char) :=
  (splitOnP Char.isWhitespace line).filter (fun t => !t.isEmpty)

/-- The token-selection loop of `save_statistics`: scan the tokens in
order and keep `part[2:]` of the latest token starting with the given
two-character prefix. -/
def selectData (pfx : List Char) (tokens : List (List Char)) :
    Option (List Char) :=
  tokens.foldl
    (fun acc part => if pfx.isPrefixOf part then some (part.drop 2) else acc)
    none

/-- The nested `parse_stat` helper: `None` input or a string without `'('`
yields the absent triple `(None, None, None)`; otherwise the string must
split into exactly two parts at `'('`, the second part (with trailing
`')'` stripped) must split into exactly two parts at `'-'`, and all three
pieces must be valid floats — any violation raises `ValueError`
(`Except.error`), which aborts `save_statistics`. -/
def parse_stat (data : Option (List Char)) :
    Except Unit (Option (PyFloat × PyFloat × PyFloat)) :=
  match data with
  | none => Except.ok none
  | some s =>
      if s.any (fun c => c = '(') then
        match splitOnChar '(' s with
        | [avg_str, range_str] =>
            match splitOnChar '-' (rstripParen range_str) with
            | [min_str, max_str] =>
                match parseFloat avg_str, parseFloat min_str,
                      parseFloat max_str with
                | some a, some mn, some mx => Except.ok (some (a, mn, mx))
                | _, _, _ => Except.error ()
            | _ => Except.error ()
        | _ => Except.error ()
      else Except.ok none

/-- The row handed to the `statistics` insert: one optional
`(avg, min, max)` triple per metric. -/
structure StatsSample where
  temp : Option (PyFloat × PyFloat × PyFloat)
  hum : Option (PyFloat × PyFloat × PyFloat)
  ldr : Option (PyFloat × PyFloat × PyFloat)
deriving DecidableEq, Repr

/-- `save_statistics`: tokenize the line, keep the last token per known
prefix, parse the three metrics, and insert the triples.  A `ValueError`
from any `parse_stat` call is caught by the surrounding `except`, the
function returns `False` and nothing is persisted (`none`). -/
def save_statistics (line : List Char) : Option StatsSample :=
  let tokens := tokensOf line
  let temp_data := selectData ['T', ':'] tokens
  let hum_data := selectData ['H', ':'] tokens
  let ldr_data := selectData ['L', ':'] tokens
  match parse_stat temp_data, parse_stat hum_data, parse_stat ldr_data with
  | Except.ok t, Except.ok h, Except.ok l => some ⟨t, h, l⟩
  | _, _, _ => none

/-!  Helper lemmas. -/

/-- Consing an update onto a sequence and then taking the most recent
write is the same as preferring the tail's most recent write. -/
theorem lastVal_cons_getD {α : Type} (f : FieldUpdate → Option α)
    (p : FieldUpdate × Bool) (rest : List (FieldUpdate × Bool)) (d : α) :
    (lastVal f (p :: rest)).getD d = (lastVal f rest).getD ((f p.fst).getD d) := by
  cases h : lastVal f rest with
  | none => cases hf : f p.fst <;> simp [lastVal, h, hf]
  | some v => simp [lastVal, h]

/-- A run containing no `estado` update emits nothing, leaves
`reading_counter`, `estado` and `last_update` untouched, and leaves each
remaining buffer field at its most recently written value. -/
theorem runUpdates_noEstado (ups : List (FieldUpdate × Bool)) :
    ∀ st : BridgeState, (∀ p ∈ ups, isEstado p.fst = false) →
    runUpdates st ups =
      ({ buffer :=
          { temperature := (lastVal bufTemp ups).getD st.buffer.temperature
            humidity := (lastVal bufHum ups).getD st.buffer.humidity
            ldr_percent := (lastVal bufLdrP ups).getD st.buffer.ldr_percent
            ldr_raw := (lastVal bufLdrRaw ups).getD st.buffer.ldr_raw
            estado := st.buffer.estado
            comfort := (lastVal bufComfort ups).getD st.buffer.comfort
            last_update := st.buffer.last_update }
         reading_counter := st.reading_counter }, []) := by
  induction ups with
  | nil =>
      intro st _
      simp [runUpdates, lastVal]
  | cons p rest ih =>
      intro st h
      obtain ⟨u, ok⟩ := p
      have hu : isEstado u = false := h (u, ok) (List.mem_cons_self _ _)
      have hrest : ∀ q ∈ rest, isEstado q.fst = false :=
        fun q hq => h q (List.mem_cons_of_mem _ hq)
      cases u with
      | estado v t => simp [isEstado] at hu
      | temperature v =>
          simp only [runUpdates, applyUpdate, ih _ hrest, Option.toList_none,
            List.nil_append, lastVal_cons_getD, bufTemp, bufHum, bufLdrP,
            bufLdrRaw, bufComfort, Option.getD_some, Option.getD_none]
      | humidity v =>
          simp only [runUpdates, applyUpdate, ih _ hrest, Option.toList_none,
            List.nil_append, lastVal_cons_getD, bufTemp, bufHum, bufLdrP,
            bufLdrRaw, bufComfort, Option.getD_some, Option.getD_none]
      | ldr_percent v =>
          simp only [runUpdates, applyUpdate, ih _ hrest, Option.toList_none,
            List.nil_append, lastVal_cons_getD, bufTemp, bufHum, bufLdrP,
            bufLdrRaw, bufComfort, Option.getD_some, Option.getD_none]
      | ldr_raw v =>
          simp only [runUpdates, applyUpdate, ih _ hrest, Option.toList_none,
            List.nil_append, lastVal_cons_getD, bufTemp, bufHum, bufLdrP,
            bufLdrRaw, bufComfort, Option.getD_some, Option.getD_none]
      | comfort v =>
          simp only [runUpdates, applyUpdate, ih _ hrest, Option.toList_none,
            List.nil_append, lastVal_cons_getD, bufTemp, bufHum, bufLdrP,
            bufLdrRaw, bufComfort, Option.getD_some, Option.getD_none]

/-- Splitting a run of updates: states thread through, emissions append. -/
theorem runUpdates_append (xs ys : List (FieldUpdate × Bool)) :
    ∀ st : BridgeState,
    runUpdates st (xs ++ ys) =
      ((runUpdates (runUpdates st xs).fst ys).fst,
       (runUpdates st xs).snd ++ (runUpdates (runUpdates st xs).fst ys).snd) := by
  induction xs with
  | nil => intro st; simp [runUpdates]
  | cons p rest ih =>
      intro st
      obtain ⟨u, ok⟩ := p
      simp [runUpdates, ih, List.append_assoc]

/-- `flush_buffer_to_db` never changes `reading_counter`. -/
theorem flush_preserves_counter (st : BridgeState) (ok : Bool) :
    (flush_buffer_to_db st ok).fst.reading_counter = st.reading_counter := by
  unfold flush_buffer_to_db
  cases h1 : st.buffer.ldr_percent <;> cases h2 : st.buffer.ldr_raw <;>
    cases h3 : st.buffer.estado <;> simp [h1, h2, h3]
  cases ok <;> simp

/-- `find?` over a list extended on the right prefers the left part. -/
theorem find?_snoc {α : Type} (l : List α) (a : α) (p : α → Bool) :
    (l ++ [a]).find? p =
      match l.find? p with
      | some b => some b
      | none => if p a then some a else none := by
  induction l with
  | nil => cases hp : p a <;> simp [List.find?, hp]
  | cons x xs ih => cases hp : p x <;> simp [List.find?, hp, ih]

/-- The token-selection fold keeps the last matching token. -/
theorem selectData_foldl (pfx : List Char) (tokens : List (List Char)) :
    ∀ acc : Option (List Char),
    tokens.foldl
        (fun a part => if pfx.isPrefixOf part then some (part.drop 2) else a)
        acc =
      match tokens.reverse.find? (fun t => pfx.isPrefixOf t) with
      | some t => some (t.drop 2)
      | none => acc := by
  induction tokens with
  | nil => intro acc; rfl
  | cons t ts ih =>
      intro acc
      rw [List.foldl_cons, ih, List.reverse_cons, find?_snoc]
      cases h : ts.reverse.find? (fun x => pfx.isPrefixOf x) with
      | some u => rfl
      | none => cases hp : pfx.isPrefixOf t <;> simp [hp]

/-- On a run of failures (`rc ≠ 0` throughout), `on_connect` depends only
on the number of failures. -/
theorem runConn_all_fail (rcs : List Nat) :
    ∀ count : Nat, (∀ rc ∈ rcs, rc ≠ 0) →
    runConn count rcs = runFailures count rcs.length := by
  induction rcs with
  | nil => intro count _; rfl
  | cons rc rest ih =>
      intro count h
      have h0 : rc ≠ 0 := h rc (List.mem_cons_self _ _)
      have hr : ∀ q ∈ rest, q ≠ 0 := fun q hq => h q (List.mem_cons_of_mem _ hq)
      by_cases hc : count + 1 < max_reconnects <;>
        simp [runConn, runFailures, on_connect, h0, hc, ih _ hr]

/-- While the failure counter stays below `max_reconnects`, every failure
only backs off and retries. -/
theorem runFailures_all_retry :
    ∀ (n count : Nat), count + n < max_reconnects →
    (runFailures count n).fst = count + n ∧
    ∀ e ∈ (runFailures count n).snd, e = ConnEffect.backoffRetry := by
  intro n
  induction n with
  | zero => intro count _; simp [runFailures]
  | succ m ih =>
      intro count h
      have hc : count + 1 < max_reconnects := by omega
      obtain ⟨hfst, hmem⟩ := ih (count + 1) (by omega)
      refine ⟨?_, ?_⟩
      · simp [runFailures, if_pos hc, hfst]; omega
      · intro e he
        simp only [runFailures, if_pos hc, List.mem_cons] at he
        rcases he with rfl | he
        · rfl
        · exact hmem e he

/-!  Claim theorems. -/

/-- Claim C1, counterexample: after `ldr_percent` and `ldr_raw` arrive, an
`estado` update whose `save_sensor_reading` call fails emits exactly one
complete reading, but the buffer is NOT reset (the claim asserts an
unconditional reset after emission).  The data stays in the buffer. -/
theorem c1_counterexample :
    (runUpdates initState
        [(FieldUpdate.ldr_percent 50, true), (FieldUpdate.ldr_raw 700, true),
         (FieldUpdate.estado "DIA" 10, false)]).snd.length = 1 ∧
    (runUpdates initState
        [(FieldUpdate.ldr_percent 50, true), (FieldUpdate.ldr_raw 700, true),
         (FieldUpdate.estado "DIA" 10, false)]).fst.buffer ≠ emptyBuffer ∧
    (runUpdates initState
        [(FieldUpdate.ldr_percent 50, true), (FieldUpdate.ldr_raw 700, true),
         (FieldUpdate.estado "DIA" 10, false)]).fst.buffer.estado = some "DIA" := by
  decide

/-- Claim C1, amended: for every sequence of field updates (since the last
reset) ending in a `state` update with `ldr_percent` and `ldr_raw` already
set, exactly one complete (`partialFlag = false`) reading is handed to the
Storage Sink, containing the most-recently-set value of every field; the
buffer is then reset to a new empty record when the persist call succeeds,
and left unchanged when it fails. -/
theorem c1_complete_flush (ups : List (FieldUpdate × Bool)) (v : String)
    (t : Int) (ok : Bool)
    (hne : ∀ p ∈ ups, isEstado p.fst = false)
    (lp : Rat) (lr : Int)
    (hlp : (lastVal bufLdrP ups).getD none = some lp)
    (hlr : (lastVal bufLdrRaw ups).getD none = some lr) :
    runUpdates initState (ups ++ [(FieldUpdate.estado v t, ok)]) =
      ({ buffer :=
          if ok then emptyBuffer else
            { temperature := (lastVal bufTemp ups).getD none
              humidity := (lastVal bufHum ups).getD none
              ldr_percent := some lp
              ldr_raw := some lr
              estado := some v
              comfort := (lastVal bufComfort ups).getD none
              last_update := some t }
         reading_counter := 1 },
       [{ temperature := (lastVal bufTemp ups).getD none
          humidity := (lastVal bufHum ups).getD none
          ldr_percent := lp
          ldr_raw := some lr
          estado := some v
          comfort := (lastVal bufComfort ups).getD none
          reading_number := 1
          partialFlag := false }]) := by
  rw [runUpdates_append, runUpdates_noEstado ups initState hne]
  simp only [initState, emptyBuffer] at *
  cases ok <;>
    simp [runUpdates, applyUpdate, flush_buffer_to_db, hlp, hlr, emptyBuffer]

/-- Witness for `c1_complete_flush` at a concrete run with a succeeding
persist call. -/
theorem c1_complete_flush_witness :
    runUpdates initState
        [(FieldUpdate.ldr_percent 50, true), (FieldUpdate.ldr_raw 700, true),
         (FieldUpdate.estado "DIA" 10, true)] =
      ({ buffer := emptyBuffer, reading_counter := 1 },
       [{ temperature := none, humidity := none, ldr_percent := 50,
          ldr_raw := some 700, estado := some "DIA", comfort := none,
          reading_number := 1, partialFlag := false }]) := by
  have h := c1_complete_flush
    [(FieldUpdate.ldr_percent 50, true), (FieldUpdate.ldr_raw 700, true)]
    "DIA" 10 true (by decide) 50 700 (by decide) (by decide)
  simpa using h

/-- Claim C2, code evaluated at the failing input: after `ldr_percent`
arrives and an `estado` update sets `last_update` (its completion flush
refuses, `ldr_raw` missing), a timeout check 61 s later emits one partial
reading and resets the buffer — but the emitted `ldr_raw` is `None`, not
the claimed default `0`: `data_buffer.get('ldr_raw', 0)` never defaults
because the key is always present (holding `None`), so the insert receives
NULL for a NOT NULL column. -/
theorem c2_timeout_default_bug :
    (runUpdates initState
        [(FieldUpdate.ldr_percent 50, true),
         (FieldUpdate.estado "NOCHE" 100, true)]).snd = [] ∧
    check_buffer_timeout
        (runUpdates initState
          [(FieldUpdate.ldr_percent 50, true),
           (FieldUpdate.estado "NOCHE" 100, true)]).fst 161 true =
      ({ buffer := emptyBuffer, reading_counter := 1 },
       some { temperature := none, humidity := none, ldr_percent := 50,
              ldr_raw := none, estado := some "NOCHE", comfort := none,
              reading_number := 1, partialFlag := true }) := by
  decide

/-- Claim C3, counterexample: a completion-triggered flush whose Storage
Sink call fails does NOT reset the buffer — the state is returned
unchanged, with the accumulated data retained for the next attempt. -/
theorem c3_counterexample :
    flush_buffer_to_db
        { buffer := { temperature := none, humidity := some 40,
                      ldr_percent := some 7, ldr_raw := some 3,
                      estado := some "DIA", comfort := none,
                      last_update := some 1 }, reading_counter := 4 } false =
      ({ buffer := { temperature := none, humidity := some 40,
                     ldr_percent := some 7, ldr_raw := some 3,
                     estado := some "DIA", comfort := none,
                     last_update := some 1 }, reading_counter := 4 },
       some { temperature := none, humidity := some 40, ldr_percent := 7,
              ldr_raw := some 3, estado := some "DIA", comfort := none,
              reading_number := 4, partialFlag := false }) ∧
    ({ temperature := none, humidity := some 40, ldr_percent := some 7,
       ldr_raw := some 3, estado := some "DIA", comfort := none,
       last_update := some 1 } : DataBuffer) ≠ emptyBuffer := by
  decide

/-- Claim C3, amended: a completion-triggered flush emits the reading and
resets the buffer exactly when the persist call succeeds (on failure the
data is retained, not reset); a timeout-triggered flush emits and resets
unconditionally, whatever the persist outcome (its result is discarded). -/
theorem c3_reset_vs_persist :
    (∀ (st : BridgeState) (ok : Bool) (lp : Rat) (lr : Int) (es : String),
        st.buffer.ldr_percent = some lp → st.buffer.ldr_raw = some lr →
        st.buffer.estado = some es →
        (flush_buffer_to_db st ok).snd.isSome = true ∧
        (flush_buffer_to_db st ok).fst.buffer =
          (if ok then emptyBuffer else st.buffer)) ∧
    (∀ (st : BridgeState) (now : Int) (ok : Bool) (lu : Int) (lp : Rat),
        st.buffer.last_update = some lu → now - lu > BUFFER_TIMEOUT →
        st.buffer.ldr_percent = some lp →
        (check_buffer_timeout st now ok).snd.isSome = true ∧
        (check_buffer_timeout st now ok).fst.buffer = emptyBuffer) := by
  constructor
  · intro st ok lp lr es hlp hlr hes
    cases ok <;> simp [flush_buffer_to_db, hlp, hlr, hes]
  · intro st now ok lu lp hlu ht hlp
    simp [check_buffer_timeout, hlu, ht, hlp]

/-- Witness for `c3_reset_vs_persist`: a failing completion flush keeps
the buffer, a timeout flush resets it even though its persist result is
`false`. -/
theorem c3_reset_vs_persist_witness :
    ((flush_buffer_to_db
        { buffer := { temperature := none, humidity := none,
                      ldr_percent := some 7, ldr_raw := some 3,
                      estado := some "DIA", comfort := none,
                      last_update := some 1 }, reading_counter := 4 } false).snd.isSome = true ∧
     (flush_buffer_to_db
        { buffer := { temperature := none, humidity := none,
                      ldr_percent := some 7, ldr_raw := some 3,
                      estado := some "DIA", comfort := none,
                      last_update := some 1 }, reading_counter := 4 } false).fst.buffer =
        { temperature := none, humidity := none,
          ldr_percent := some 7, ldr_raw := some 3,
          estado := some "DIA", comfort := none, last_update := some 1 }) ∧
    ((check_buffer_timeout
        { buffer := { temperature := none, humidity := none,
                      ldr_percent := some 9, ldr_raw := none,
                      estado := some "NOCHE", comfort := none,
                      last_update := some 0 }, reading_counter := 2 } 61 false).snd.isSome = true ∧
     (check_buffer_timeout
        { buffer := { temperature := none, humidity := none,
                      ldr_percent := some 9, ldr_raw := none,
                      estado := some "NOCHE", comfort := none,
                      last_update := some 0 }, reading_counter := 2 } 61 false).fst.buffer =
        emptyBuffer) := by
  constructor
  · have h := c3_reset_vs_persist.1
      { buffer := { temperature := none, humidity := none,
                    ldr_percent := some 7, ldr_raw := some 3,
                    estado := some "DIA", comfort := none,
                    last_update := some 1 }, reading_counter := 4 }
      false 7 3 "DIA" rfl rfl rfl
    simpa using h
  · exact c3_reset_vs_persist.2
      { buffer := { temperature := none, humidity := none,
                    ldr_percent := some 9, ldr_raw := none,
                    estado := some "NOCHE", comfort := none,
                    last_update := some 0 }, reading_counter := 2 }
      61 false 0 9 rfl (by decide) rfl

/-- Claim C4 (confirmed): one `on_message` step increments
`reading_counter` by exactly one when the update is the `estado` field and
leaves it unchanged otherwise — independent of the buffer contents and of
whether the triggered flush emits or its persist call succeeds (both are
universally quantified), so counters strictly increase by one across
consecutive `estado`-triggered attempts. -/
theorem c4_counter_per_estado (st : BridgeState) (u : FieldUpdate) (ok : Bool) :
    (applyUpdate st u ok).fst.reading_counter =
      st.reading_counter + (if isEstado u then 1 else 0) := by
  cases u <;> simp [applyUpdate, isEstado, flush_preserves_counter]

/-- Claim C5, counterexample: the known-prefixed token `T:25.3(18.5)` is
missing the `-` of the `(`/`-`/`)` structure, and instead of yielding an
absent temperature with humidity still parsed, the whole line hard-fails
(the `ValueError` from the range split is caught and nothing is
persisted).  The second conjunct shows the very same humidity token alone
is well-formed and would be persisted. -/
theorem c5_counterexample :
    save_statistics "T:25.3(18.5) H:65.2(45.0-85.0)".data = none ∧
    save_statistics "H:65.2(45.0-85.0)".data =
      some { temp := none, hum := some (⟨652, 1⟩, ⟨450, 1⟩, ⟨850, 1⟩),
             ldr := none } := by
  decide

/-- Claim C5, amended: a known-prefixed token that contains no `(` at all
yields the absent triple for its metric (never an error), so the remaining
tokens are still parsed and emitted — as on the spec's example line
`T:25.3 H:65.2(45.0-85.0)`; a known-prefixed token that contains `(` but
lacks the single `-`/single-`(` interior fails the whole line: the error
is caught inside `save_statistics` (no exception propagates) and nothing
is persisted. -/
theorem c5_malformed_token :
    (∀ s : List Char, (s.any fun c => c = '(') = false →
        parse_stat (some s) = Except.ok none) ∧
    save_statistics "T:25.3 H:65.2(45.0-85.0)".data =
      some { temp := none, hum := some (⟨652, 1⟩, ⟨450, 1⟩, ⟨850, 1⟩),
             ldr := none } := by
  constructor
  · intro s h
    simp [parse_stat, h]
  · decide

/-- Witness for `c5_malformed_token`: the malformed token `25.3` (after
prefix stripping) yields the absent triple, and the example line parses
with humidity intact. -/
theorem c5_malformed_token_witness :
    parse_stat (some "25.3".data) = Except.ok none ∧
    save_statistics "T:25.3 H:65.2(45.0-85.0)".data =
      some { temp := none, hum := some (⟨652, 1⟩, ⟨450, 1⟩, ⟨850, 1⟩),
             ldr := none } :=
  ⟨c5_malformed_token.1 "25.3".data (by decide), c5_malformed_token.2⟩

/-- Claim C6 (confirmed): from a fresh counter, any run of exactly five
consecutive connection failures produces four backoff-retry cycles
followed by one fatal `MQTT_ERROR` event — exactly one fatal event — and
leaves the counter at `max_reconnects`, the regime in which the handler no
longer schedules a retry (the terminal `Failed` state); any run of fewer
than five consecutive failures produces only backoff-retry cycles and
never emits a fatal event. -/
theorem c6_reconnect_fatal :
    (∀ rcs : List Nat, (∀ rc ∈ rcs, rc ≠ 0) → rcs.length = 5 →
        runConn 0 rcs =
          (5, [ConnEffect.backoffRetry, ConnEffect.backoffRetry,
               ConnEffect.backoffRetry, ConnEffect.backoffRetry,
               ConnEffect.fatalError]) ∧
        (runConn 0 rcs).snd.countP
            (fun e => decide (e = ConnEffect.fatalError)) = 1 ∧
        max_reconnects ≤ (runConn 0 rcs).fst) ∧
    (∀ rcs : List Nat, (∀ rc ∈ rcs, rc ≠ 0) → rcs.length < 5 →
        ∀ e ∈ (runConn 0 rcs).snd, e = ConnEffect.backoffRetry) := by
  constructor
  · intro rcs hnz hlen
    rw [runConn_all_fail rcs 0 hnz, hlen]
    refine ⟨by decide, by decide, by decide⟩
  · intro rcs hnz hlen
    rw [runConn_all_fail rcs 0 hnz]
    have h : 0 + rcs.length < max_reconnects := by
      simpa [max_reconnects] using hlen
    exact (runFailures_all_retry rcs.length 0 h).2

/-- Witness for `c6_reconnect_fatal`: five failures with code 5 give four
retries then the fatal event; two failures give only retries. -/
theorem c6_reconnect_fatal_witness :
    runConn 0 [5, 5, 5, 5, 5] =
      (5, [ConnEffect.backoffRetry, ConnEffect.backoffRetry,
           ConnEffect.backoffRetry, ConnEffect.backoffRetry,
           ConnEffect.fatalError]) ∧
    ∀ e ∈ (runConn 0 [5, 5]).snd, e = ConnEffect.backoffRetry :=
  ⟨(c6_reconnect_fatal.1 [5, 5, 5, 5, 5] (by decide) rfl).1,
   c6_reconnect_fatal.2 [5, 5] (by decide) (by decide)⟩

/-- Claim C7 (confirmed): a timeout check performed while `ldr_percent` is
absent is a no-op whatever the elapsed time: nothing is emitted and the
whole state — every buffer field including `last_update` — is returned
unchanged. -/
theorem c7_timeout_noop (st : BridgeState) (now : Int) (ok : Bool)
    (h : st.buffer.ldr_percent = none) :
    check_buffer_timeout st now ok = (st, none) := by
  unfold check_buffer_timeout
  cases hlu : st.buffer.last_update with
  | none => rfl
  | some lu =>
      by_cases ht : now - lu > BUFFER_TIMEOUT <;> simp [h, ht]

/-- Witness for `c7_timeout_noop` at a stale buffer (41 s past the
timeout) holding data in other fields but no `ldr_percent`. -/
theorem c7_timeout_noop_witness :
    check_buffer_timeout
        { buffer := { temperature := some 20, humidity := none,
                      ldr_percent := none, ldr_raw := some 3,
                      estado := some "DIA", comfort := none,
                      last_update := some 0 }, reading_counter := 2 } 101 true =
      ({ buffer := { temperature := some 20, humidity := none,
                     ldr_percent := none, ldr_raw := some 3,
                     estado := some "DIA", comfort := none,
                     last_update := some 0 }, reading_counter := 2 }, none) :=
  c7_timeout_noop _ 101 true rfl

/-- Claim C8 (confirmed): `last_update` is written only by the `estado`
branch of `on_message`, so after any sequence of non-`estado` updates from
a freshly reset buffer it is still `None`, nothing has been emitted, and a
timeout check at any time is a no-op (no flush, no reset, state returned
unchanged) even when `ldr_percent` is present. -/
theorem c8_no_estado_no_timeout (n : Nat) (ups : List (FieldUpdate × Bool))
    (now : Int) (ok : Bool)
    (hne : ∀ p ∈ ups, isEstado p.fst = false) :
    (runUpdates ⟨emptyBuffer, n⟩ ups).fst.buffer.last_update = none ∧
    (runUpdates ⟨emptyBuffer, n⟩ ups).snd = [] ∧
    check_buffer_timeout (runUpdates ⟨emptyBuffer, n⟩ ups).fst now ok =
      ((runUpdates ⟨emptyBuffer, n⟩ ups).fst, none) := by
  rw [runUpdates_noEstado ups ⟨emptyBuffer, n⟩ hne]
  refine ⟨rfl, rfl, ?_⟩
  simp [check_buffer_timeout, emptyBuffer]

/-- Witness for `c8_no_estado_no_timeout`: `temperature` and `ldr_percent`
arrive but no `estado`; a check far in the future still does nothing. -/
theorem c8_no_estado_no_timeout_witness :
    (runUpdates ⟨emptyBuffer, 3⟩
        [(FieldUpdate.temperature (some 20), true),
         (FieldUpdate.ldr_percent 50, true)]).fst.buffer.last_update = none ∧
    (runUpdates ⟨emptyBuffer, 3⟩
        [(FieldUpdate.temperature (some 20), true),
         (FieldUpdate.ldr_percent 50, true)]).snd = [] ∧
    check_buffer_timeout
        (runUpdates ⟨emptyBuffer, 3⟩
          [(FieldUpdate.temperature (some 20), true),
           (FieldUpdate.ldr_percent 50, true)]).fst 1000000 true =
      ((runUpdates ⟨emptyBuffer, 3⟩
          [(FieldUpdate.temperature (some 20), true),
           (FieldUpdate.ldr_percent 50, true)]).fst, none) :=
  c8_no_estado_no_timeout 3
    [(FieldUpdate.temperature (some 20), true),
     (FieldUpdate.ldr_percent 50, true)] 1000000 true (by decide)

/-- Claim C9 (confirmed): a timeout check never changes `reading_counter`,
and any partial reading it emits carries the current counter value — the
number assigned by the most recent `estado`-triggered attempt (0 if none
ever occurred). -/
theorem c9_timeout_preserves_counter (st : BridgeState) (now : Int)
    (ok : Bool) :
    (check_buffer_timeout st now ok).fst.reading_counter =
      st.reading_counter ∧
    ∀ r : SensorReading, (check_buffer_timeout st now ok).snd = some r →
      r.reading_number = st.reading_counter := by
  unfold check_buffer_timeout
  cases hlu : st.buffer.last_update with
  | none => exact ⟨rfl, fun r hr => by cases hr⟩
  | some lu =>
      by_cases ht : now - lu > BUFFER_TIMEOUT
      · cases hlp : st.buffer.ldr_percent with
        | none => simp [ht]
        | some lp =>
            refine ⟨by simp [ht], ?_⟩
            intro r hr
            simp [ht] at hr
            rw [← hr]
      · simp [ht]

/-- Witness for `c9_timeout_preserves_counter` at a state that actually
emits: counter 7 is preserved and the emitted row is numbered 7. -/
theorem c9_timeout_preserves_counter_witness :
    (check_buffer_timeout
        { buffer := { temperature := none, humidity := none,
                      ldr_percent := some 50, ldr_raw := none,
                      estado := some "NOCHE", comfort := none,
                      last_update := some 0 }, reading_counter := 7 } 61
        true).fst.reading_counter = 7 ∧
    ({ temperature := none, humidity := none, ldr_percent := 50,
       ldr_raw := none, estado := some "NOCHE", comfort := none,
       reading_number := 7, partialFlag := true } : SensorReading).reading_number = 7 :=
  ⟨(c9_timeout_preserves_counter
      { buffer := { temperature := none, humidity := none,
                    ldr_percent := some 50, ldr_raw := none,
                    estado := some "NOCHE", comfort := none,
                    last_update := some 0 }, reading_counter := 7 } 61 true).1,
   (c9_timeout_preserves_counter
      { buffer := { temperature := none, humidity := none,
                    ldr_percent := some 50, ldr_raw := none,
                    estado := some "NOCHE", comfort := none,
                    last_update := some 0 }, reading_counter := 7 } 61 true).2
      _ (by decide)⟩

/-- Claim C10 (confirmed): for every stats line, the token selected for
each known prefix is the LAST token of the line carrying that prefix
(later occurrences overwrite earlier ones in the selection loop), and on a
line with two `T:` tokens the emitted temperature triple comes from the
second one. -/
theorem c10_last_token_wins :
    (∀ line : List Char,
        selectData ['T', ':'] (tokensOf line) =
          ((tokensOf line).reverse.find?
            (fun t => List.isPrefixOf ['T', ':'] t)).map (fun t => t.drop 2) ∧
        selectData ['H', ':'] (tokensOf line) =
          ((tokensOf line).reverse.find?
            (fun t => List.isPrefixOf ['H', ':'] t)).map (fun t => t.drop 2) ∧
        selectData ['L', ':'] (tokensOf line) =
          ((tokensOf line).reverse.find?
            (fun t => List.isPrefixOf ['L', ':'] t)).map (fun t => t.drop 2)) ∧
    save_statistics "T:1(2-3) T:4(5-6)".data =
      some { temp := some (⟨4, 0⟩, ⟨5, 0⟩, ⟨6, 0⟩), hum := none,
             ldr := none } := by
  constructor
  · intro line
    refine ⟨?_, ?_, ?_⟩ <;>
      · rw [selectData, selectData_foldl]
        cases (tokensOf line).reverse.find? _ <;> rfl
  · decide

end MqttBridge
